import Mathlib

/-!
Shallow embedding of the interface-configuration validation models in
`solutions/interface_models.py` (pydantic v2 models `InterfaceData` and
`InterfacePortConfig`).

Modelling conventions:
- Python strings are `List Char` (ASCII behaviour; the regexes and the
  ticket fields in question are ASCII).
- A raw input mapping (the Python `dict` handed to `model_validate`) is a
  structure with one `Option PyVal` field per key that the code ever reads
  or writes; `none` means the key is absent, `some PyVal.vnone` means the
  key is present with the Python value `None`.
- Validation returns `Except VErr record`.  `VErr.invalid` models a
  pydantic `ValidationError` (a `ValueError` raised inside a validator, or
  a core coercion / constraint failure — pydantic wraps these); we keep the
  first error rather than pydantic's collected list, which is observably
  identical for "does validation succeed and with which record" and for
  the kind of the reported failure in all properties below.
  `VErr.uncaught` models an exception that pydantic does NOT wrap
  (e.g. `KeyError` from `del data[k]` or `data[k]`), which escapes
  `model_validate` as a plain Python exception.
- pydantic v2 runs `model_validator(mode="before")` functions in reverse
  definition order (the last defined wraps outermost and runs first); the
  four before-validators here touch disjoint key sets, so the final data
  is order-independent, but we keep the faithful order.
- Field defaults are applied without validation (pydantic
  `validate_default` is false by default); constrained-field checks
  (`ge`/`le`/`max_length`) run before `field_validator` functions in
  "after" mode.
-/

namespace Wks2477

/-- A Python value as it appears in the ticket mapping. -/
inductive PyVal where
  | vstr (s : List Char)
  | vint (n : Int)
  | vbool (b : Bool)
  | vnone
deriving DecidableEq

/-- The raw input mapping passed to `model_validate`.  One field per dict
key used by the models; `none` = key absent, `some v` = key present. -/
structure RawData where
  network_interface_name : Option PyVal := none
  network_interface_description : Option PyVal := none
  network_interface_enabled : Option PyVal := none
  network_interface_mtu : Option PyVal := none
  network_switchport_mode_and_vlan : Option PyVal := none
  network_interface_ip4_address : Option PyVal := none
  interface_type : Option PyVal := none
  interface_name : Option PyVal := none
  switchport_mode : Option PyVal := none
  switchport_native_vlan : Option PyVal := none
  switchport_allowed_vlans : Option PyVal := none
deriving DecidableEq

/-- Validation outcome kinds.  `invalid` = structured
`pydantic.ValidationError`; `uncaught` = a non-`ValueError` exception
(`KeyError`, `AttributeError`, ...) escaping `model_validate` unwrapped. -/
inductive VErr where
  | invalid (msg : List Char)
  | uncaught (msg : List Char)
deriving DecidableEq

/-- `true` exactly when validation failed with a structured
`ValidationError`. -/
def isInvalid {α : Type} : Except VErr α → Bool
  | .error (.invalid _) => true
  | _ => false

/-- `true` exactly when validation escaped with an unwrapped exception. -/
def isUncaught {α : Type} : Except VErr α → Bool
  | .error (.uncaught _) => true
  | _ => false

/-- `true` exactly when validation succeeded. -/
def isOk {α : Type} : Except VErr α → Bool
  | .ok _ => true
  | _ => false

/-- Python `str.lower()` (ASCII model). -/
def lowerStr (s : List Char) : List Char := s.map Char.toLower

/-- Python `s.split(sep, 1)` when the separator occurs (the pair of the
part before the first separator and the rest); `none` when it does not
occur, in which case unpacking into two names raises `ValueError`. -/
def splitFirst (sep : Char) : List Char → Option (List Char × List Char)
  | [] => none
  | c :: rest =>
    if c = sep then some ([], rest)
    else
      match splitFirst sep rest with
      | some (a, b) => some (c :: a, b)
      | none => none

/-- Python `re.split` / `str.split` on single-character delimiters chosen
by `p`: always at least one (possibly empty) part; consecutive delimiters
produce empty parts. -/
def splitAll (p : Char → Bool) : List Char → List (List Char)
  | [] => [[]]
  | c :: rest =>
    if p c then [] :: splitAll p rest
    else
      match splitAll p rest with
      | g :: gs => (c :: g) :: gs
      | [] => [[c]]

/-- Decimal digits to a natural number. -/
def digitsToNat (s : List Char) : Nat :=
  s.foldl (fun acc c => 10 * acc + (c.toNat - '0'.toNat)) 0

/-- Python `int(str)` (also the lax string-to-int coercion pydantic v2
applies): strip surrounding spaces, optional sign, then one or more
decimal digits; anything else raises `ValueError`. -/
def pyParseInt (s : List Char) : Option Int :=
  let t := ((s.dropWhile (fun c => c = ' ')).reverse.dropWhile (fun c => c = ' ')).reverse
  match t with
  | '+' :: ds =>
    if ds ≠ [] ∧ ds.all Char.isDigit then some (digitsToNat ds) else none
  | '-' :: ds =>
    if ds ≠ [] ∧ ds.all Char.isDigit then some (-(digitsToNat ds : Int)) else none
  | ds =>
    if ds ≠ [] ∧ ds.all Char.isDigit then some (digitsToNat ds) else none

/-! ### The two regular expressions -/

/-- `INTERFACE_REGEX = re.compile(r"(\D+)(.*)")`, used via `.match`:
group 1 is the maximal leading run of non-digit characters (at least one
character, since `\D+` is mandatory), group 2 is the longest `'\n'`-free
prefix of the remainder (`.` does not match a newline and the match is not
anchored at the end).  `none` models `re.match` returning `None`, i.e. the
string is empty or starts with a digit. -/
def interfaceRegexMatch (s : List Char) : Option (List Char × List Char) :=
  if (s.takeWhile (fun c => !c.isDigit)).isEmpty then none
  else some (s.takeWhile (fun c => !c.isDigit),
             (s.dropWhile (fun c => !c.isDigit)).takeWhile (fun c => c ≠ '\n'))

/-- The leading mandatory group `(0|[1-9][0-9]*)` of
`YANG_REGEX = re.compile(r'(0|[1-9][0-9]*)(/(0|[1-9][0-9]*))*(\.[0-9]*)?')`:
consumes the group at the start of the string (alternatives tried left to
right, `[0-9]*` greedy) or fails. -/
def yangLeadingDigitGroup : List Char → Option (List Char)
  | [] => none
  | c :: rest =>
    if c = '0' then some rest
    else if '1' ≤ c ∧ c ≤ '9' then some (rest.dropWhile Char.isDigit)
    else none

/-- Truthiness of `YANG_REGEX.match(v)`.  The pattern is not anchored at
the end and every component after the leading digit group
(`(/(0|[1-9][0-9]*))*` and `(\.[0-9]*)?`) matches the empty string, so a
match exists at position 0 exactly when the leading group matches there. -/
def yangRegexMatches (s : List Char) : Bool :=
  (yangLeadingDigitGroup s).isSome

/-- States of a deterministic scanner for the index grammar of the spec. -/
inductive GramState where
  | groupStart
  | afterZero
  | inGroup
  | dotStart
  | inSuffix
deriving DecidableEq

/-- Modelled from the spec: one transition of the index-grammar scanner —
a group is either exactly "0" (`afterZero`: no further digit may follow)
or `[1-9][0-9]*` (`inGroup`); `/` starts the next group; `.` starts the
mandatory non-empty digit suffix. -/
def gramStep (st : GramState) (c : Char) : Option GramState :=
  match st with
  | .groupStart =>
    if c = '0' then some .afterZero
    else if '1' ≤ c ∧ c ≤ '9' then some .inGroup
    else none
  | .afterZero =>
    if c = '/' then some .groupStart
    else if c = '.' then some .dotStart
    else none
  | .inGroup =>
    if c.isDigit then some .inGroup
    else if c = '/' then some .groupStart
    else if c = '.' then some .dotStart
    else none
  | .dotStart => if c.isDigit then some .inSuffix else none
  | .inSuffix => if c.isDigit then some .inSuffix else none

/-- Run the scanner over the string. -/
def gramRun (st : GramState) : List Char → Option GramState
  | [] => some st
  | c :: rest =>
    match gramStep st c with
    | some st' => gramRun st' rest
    | none => none

/-- A state is accepting when a complete group or suffix just ended. -/
def gramAccepts (st : GramState) : Bool :=
  match st with
  | .afterZero => true
  | .inGroup => true
  | .inSuffix => true
  | _ => false

/-- Modelled from the spec: the interface-index grammar matched IN FULL —
one or more groups of decimal digits with no leading zeros (except a
literal "0"), groups separated by `/`, the whole optionally followed by
`.` and a decimal digit sequence.  This is the comparison point for the
unanchored check the code actually performs. -/
def specIndexGrammar (s : List Char) : Bool :=
  match gramRun .groupStart s with
  | some st => gramAccepts st
  | none => false

/-! ### Before-mode model validators (`model_validator(mode="before")`) -/

/-- `InterfaceData.set_interface_details`: match `INTERFACE_REGEX` against
`data["network_interface_name"]` and inject `interface_type` and
`interface_name`.  The bare `except Exception` converts every failure —
`KeyError` (missing key), `TypeError` (non-string value), and
`AttributeError` on `None.groups()` when the regex does not match — into
the same `ValueError`, which pydantic wraps as a `ValidationError`. -/
def set_interface_details (d : RawData) : Except VErr RawData :=
  match d.network_interface_name with
  | some (.vstr s) =>
    match interfaceRegexMatch s with
    | some g =>
      .ok { d with interface_type := some (.vstr g.1), interface_name := some (.vstr g.2) }
    | none =>
      .error (.invalid "Unable to extract the interface type and name from the ticket.".data)
  | _ => .error (.invalid "Unable to extract the interface type and name from the ticket.".data)

/-- `InterfaceData.remove_unset_mtu`: `data.get("network_interface_mtu", "")`
returns the default `""` when the key is ABSENT, so the `== ""` branch is
taken and `del data["network_interface_mtu"]` raises an unwrapped
`KeyError`; a present empty string deletes the key so the field default
applies; any other present value is kept. -/
def remove_unset_mtu (d : RawData) : Except VErr RawData :=
  match d.network_interface_mtu with
  | none => .error (.uncaught "KeyError: network_interface_mtu".data)
  | some v =>
    if v = .vstr [] then .ok { d with network_interface_mtu := none } else .ok d

/-- Body of `InterfacePortConfig.set_switchport_details` once the
descriptor string `s` has been fetched: split on the first `:` (unpacking
a colon-less string raises `ValueError`, wrapped by pydantic).  The mode
token is compared case-insensitively but stored verbatim; an unrecognized
token is stored with no VLAN keys set.  The trunk branch unpacks
`rest.split(":")` into exactly two parts. -/
def parse_switchport_descriptor (d : RawData) (s : List Char) : Except VErr RawData :=
  match splitFirst ':' s with
  | none => .error (.invalid "not enough values to unpack (expected 2, got 1)".data)
  | some (mode, rest) =>
    if lowerStr mode = "l3".data then
      .ok { d with switchport_mode := some .vnone }
    else if lowerStr mode = "access".data then
      let pv := if rest = [] then PyVal.vnone else PyVal.vstr rest
      .ok { d with switchport_native_vlan := some pv, switchport_mode := some (.vstr mode) }
    else if lowerStr mode = "trunk".data then
      match splitAll (fun c => c = ':') rest with
      | [nv, av] =>
        let nv₀ := if nv = [] then PyVal.vnone else PyVal.vstr nv
        .ok { d with switchport_native_vlan := some nv₀,
                     switchport_allowed_vlans := some (.vstr av),
                     switchport_mode := some (.vstr mode) }
      | parts =>
        .error (.invalid (if parts.length ≤ 1 then
            "not enough values to unpack (expected 2, got 1)".data
          else "too many values to unpack (expected 2)".data))
    else
      .ok { d with switchport_mode := some (.vstr mode) }

/-- `InterfacePortConfig.set_switchport_details`: fetch the compound
descriptor `data["network_switchport_mode_and_vlan"]` (a missing key
raises `KeyError`, which pydantic does not wrap; calling `.split` on a
non-string raises `AttributeError`, also unwrapped) and parse it. -/
def set_switchport_details (d : RawData) : Except VErr RawData :=
  match d.network_switchport_mode_and_vlan with
  | none => .error (.uncaught "KeyError: network_switchport_mode_and_vlan".data)
  | some (.vstr s) => parse_switchport_descriptor d s
  | some _ => .error (.uncaught "AttributeError: split".data)

/-- `InterfacePortConfig.remove_unset_ip4_addr`: same shape as
`remove_unset_mtu` — an absent key raises an unwrapped `KeyError`, a
present empty string is deleted so the default `None` applies. -/
def remove_unset_ip4_addr (d : RawData) : Except VErr RawData :=
  match d.network_interface_ip4_address with
  | none => .error (.uncaught "KeyError: network_interface_ip4_address".data)
  | some v =>
    if v = .vstr [] then .ok { d with network_interface_ip4_address := none } else .ok d

/-! ### Field coercions (pydantic v2 lax mode) -/

/-- Lax coercion to `str`: pydantic v2 does not coerce numbers or booleans
to strings. -/
def coerceStr (v : PyVal) : Except VErr (List Char) :=
  match v with
  | .vstr s => .ok s
  | _ => .error (.invalid "Input should be a valid string".data)

/-- Lax coercion to `Optional[str]`. -/
def coerceOptStr (v : PyVal) : Except VErr (Option (List Char)) :=
  match v with
  | .vnone => .ok none
  | .vstr s => .ok (some s)
  | _ => .error (.invalid "Input should be a valid string".data)

/-- Lax coercion to `int`: ints pass, strings are parsed, booleans are
rejected by pydantic v2 for `int` fields, `None` is rejected. -/
def coerceInt (v : PyVal) : Except VErr Int :=
  match v with
  | .vint n => .ok n
  | .vstr s =>
    match pyParseInt s with
    | some n => .ok n
    | none => .error (.invalid "Input should be a valid integer".data)
  | _ => .error (.invalid "Input should be a valid integer".data)

/-- Lax coercion to `Optional[int]`. -/
def coerceOptInt (v : PyVal) : Except VErr (Option Int) :=
  match v with
  | .vnone => .ok none
  | _ => (coerceInt v).map some

/-- Lax coercion to `bool`: bools pass, the ints 0 and 1 and the usual
string spellings are coerced, everything else is rejected. -/
def coerceBool (v : PyVal) : Except VErr Bool :=
  match v with
  | .vbool b => .ok b
  | .vint 0 => .ok false
  | .vint 1 => .ok true
  | .vstr s =>
    if (lowerStr s = "true".data ∨ lowerStr s = "t".data ∨ lowerStr s = "yes".data ∨
        lowerStr s = "y".data ∨ lowerStr s = "on".data ∨ lowerStr s = "1".data) then .ok true
    else if (lowerStr s = "false".data ∨ lowerStr s = "f".data ∨ lowerStr s = "no".data ∨
        lowerStr s = "n".data ∨ lowerStr s = "off".data ∨ lowerStr s = "0".data) then .ok false
    else .error (.invalid "Input should be a valid boolean".data)
  | _ => .error (.invalid "Input should be a valid boolean".data)

/-- An `ipaddress.IPv4Interface` value (Python standard library; modelled
for the dotted-quad with optional prefix-length forms the code can
receive). -/
structure IPv4Intf where
  octA : Nat
  octB : Nat
  octC : Nat
  octD : Nat
  plen : Nat
deriving DecidableEq

/-- One dotted-quad octet: decimal digits, no leading zero (Python
`ipaddress` rejects them), value at most 255. -/
def parseOctet (s : List Char) : Option Nat :=
  match s with
  | [] => none
  | ['0'] => some 0
  | c :: _ =>
    if ('1' ≤ c ∧ c ≤ '9') ∧ s.all Char.isDigit ∧ digitsToNat s ≤ 255 then
      some (digitsToNat s)
    else none

/-- `ipaddress.IPv4Interface(str)` for `a.b.c.d` (host prefix 32 implied)
and `a.b.c.d/len` inputs. -/
def parseIPv4Interface (s : List Char) : Option IPv4Intf :=
  let parts := match splitFirst '/' s with
    | none => (s, ([] : List Char), false)
    | some (a, p) => (a, p, true)
  let plen : Option Nat :=
    if parts.2.2 then
      if parts.2.1 ≠ [] ∧ parts.2.1.all Char.isDigit ∧ digitsToNat parts.2.1 ≤ 32 then
        some (digitsToNat parts.2.1)
      else none
    else some 32
  match plen, splitAll (fun c => c = '.') parts.1 with
  | some pl, [a, b, c, d] =>
    match parseOctet a, parseOctet b, parseOctet c, parseOctet d with
    | some x, some y, some z, some w => some ⟨x, y, z, w, pl⟩
    | _, _, _, _ => none
  | _, _ => none

/-- Lax coercion to `Optional[IPv4Interface]`. -/
def coerceOptIp (v : PyVal) : Except VErr (Option IPv4Intf) :=
  match v with
  | .vnone => .ok none
  | .vstr s =>
    match parseIPv4Interface s with
    | some ip => .ok (some ip)
    | none => .error (.invalid "Input is not a valid IPv4 interface".data)
  | _ => .error (.invalid "Input is not a valid IPv4 interface".data)

/-! ### After-mode field validators and field constraints -/

/-- `InterfaceData.validate_interface_name`: reject when
`YANG_REGEX.match(v)` is falsy. -/
def validate_interface_name (v : List Char) : Except VErr (List Char) :=
  if yangRegexMatches v then .ok v
  else .error (.invalid ("Invalid name for interface: ".data ++ v))

/-- `InterfaceData.empty_str_to_none` on the already-coerced
`Optional[str]` value: the empty string becomes `None`. -/
def empty_str_to_none (v : Option (List Char)) : Option (List Char) :=
  match v with
  | some [] => none
  | x => x

/-- The `min_length=0, max_length=200` constraint on
`interface_description` (checked before the after-mode validator;
`min_length=0` can never fail). -/
def checkDescLen (v : Option (List Char)) : Except VErr Unit :=
  match v with
  | none => .ok ()
  | some s =>
    if s.length ≤ 200 then .ok ()
    else .error (.invalid "String should have at most 200 characters".data)

/-- The `ge=1500, le=9000` constraint on `interface_mtu`. -/
def checkMtuRange (n : Int) : Except VErr Int :=
  if 1500 ≤ n ∧ n ≤ 9000 then .ok n
  else .error (.invalid "Input should be in the range 1500 to 9000".data)

/-- `InterfacePortConfig.validate_native_vlan` on the coerced
`Optional[int]` value: `if v and not 1 <= int(v) <= 4094` — the truthiness
test skips the range check for `None` AND for `0`. -/
def validate_native_vlan (v : Option Int) : Except VErr (Option Int) :=
  match v with
  | none => .ok none
  | some n =>
    if n ≠ 0 ∧ ¬(1 ≤ n ∧ n ≤ 4094) then
      .error (.invalid "VLAN must be in the range 1-4094.".data)
    else .ok (some n)

/-- Python `v.replace(" ", "")`. -/
def removeSpaces (s : List Char) : List Char := s.filter (fun c => c ≠ ' ')

/-- Membership of the `re.split(r",|-", v)` delimiter set. -/
def isCommaDash (c : Char) : Bool := c = ',' ∨ c = '-'

/-- One token of the allowed-VLAN list parses as an int in `[1, 4094]`. -/
def vlanTokenOk (t : List Char) : Bool :=
  match pyParseInt t with
  | some n => 1 ≤ n ∧ n ≤ 4094
  | none => false

/-- The loop body of `validate_allowed_vlans`: `int(vlan)` raising on a
non-numeric token is a `ValueError` (wrapped by pydantic), as is the
explicit range failure naming the offending token. -/
def checkVlanTokens : List (List Char) → Except VErr Unit
  | [] => .ok ()
  | t :: ts =>
    match pyParseInt t with
    | none => .error (.invalid ("invalid literal for int with base 10: ".data ++ t))
    | some n =>
      if 1 ≤ n ∧ n ≤ 4094 then checkVlanTokens ts
      else .error (.invalid ("VLAN ".data ++ t ++ " error: must be in the range 1-4094".data))

/-- `InterfacePortConfig.validate_allowed_vlans` on the coerced
`Optional[str]` value: the empty string becomes `None`; otherwise spaces
are removed, the result is split on `,` and `-` as plain delimiters, every
token is range-checked, and the space-stripped string is stored. -/
def validate_allowed_vlans (v : Option (List Char)) : Except VErr (Option (List Char)) :=
  match v with
  | none => .ok none
  | some s =>
    if s = [] then .ok none
    else
      let stripped := removeSpaces s
      match checkVlanTokens (splitAll isCommaDash stripped) with
      | .ok _ => .ok (some stripped)
      | .error e => .error e

/-! ### Field assembly (alias lookup, defaults, coercion, constraints,
after-validators — in field definition order, first error reported) -/

/-- The validated `InterfaceData` record. -/
structure InterfaceDataRec where
  interface_type : List Char
  interface_name : List Char
  interface_enabled : Bool
  interface_description : Option (List Char)
  interface_mtu : Int
deriving DecidableEq

/-- `interface_type: str` — no alias, required, no default. -/
def typeField (d : RawData) : Except VErr (List Char) :=
  match d.interface_type with
  | none => .error (.invalid "Field required: interface_type".data)
  | some v => coerceStr v

/-- `interface_name: str` with the `validate_interface_name` validator. -/
def nameField (d : RawData) : Except VErr (List Char) :=
  match d.interface_name with
  | none => .error (.invalid "Field required: interface_name".data)
  | some v => do validate_interface_name (← coerceStr v)

/-- `interface_enabled: bool`, alias `network_interface_enabled`,
required. -/
def enabledField (d : RawData) : Except VErr Bool :=
  match d.network_interface_enabled with
  | none => .error (.invalid "Field required: network_interface_enabled".data)
  | some v => coerceBool v

/-- `interface_description: Optional[str]`, alias
`network_interface_description`, required (pydantic v2 gives `Optional`
no implicit default), `max_length=200`, then `empty_str_to_none`. -/
def descriptionField (d : RawData) : Except VErr (Option (List Char)) :=
  match d.network_interface_description with
  | none => .error (.invalid "Field required: network_interface_description".data)
  | some v => do
    let s ← coerceOptStr v
    let _ ← checkDescLen s
    .ok (empty_str_to_none s)

/-- `interface_mtu: int`, alias `network_interface_mtu`, `ge=1500`,
`le=9000`, default `1500` (defaults are not re-validated). -/
def mtuField (d : RawData) : Except VErr Int :=
  match d.network_interface_mtu with
  | none => .ok 1500
  | some v => do checkMtuRange (← coerceInt v)

/-- Field phase of `InterfaceData`. -/
def buildInterfaceFields (d : RawData) : Except VErr InterfaceDataRec := do
  let ty ← typeField d
  let nm ← nameField d
  let en ← enabledField d
  let desc ← descriptionField d
  let mtu ← mtuField d
  .ok { interface_type := ty, interface_name := nm, interface_enabled := en,
        interface_description := desc, interface_mtu := mtu }

/-- `InterfaceData.model_validate`: before-mode model validators (reverse
definition order), then the field phase. -/
def InterfaceData_model_validate (d : RawData) : Except VErr InterfaceDataRec := do
  let d ← remove_unset_mtu d
  let d ← set_interface_details d
  buildInterfaceFields d

/-- The validated `InterfacePortConfig` record. -/
structure InterfacePortConfigRec extends InterfaceDataRec where
  switchport_mode : Option (List Char)
  switchport_native_vlan : Option Int
  switchport_allowed_vlans : Option (List Char)
  interface_ip4_address : Option IPv4Intf
deriving DecidableEq

/-- `switchport_mode: Optional[str] = None` — no alias, defaulted. -/
def modeField (d : RawData) : Except VErr (Option (List Char)) :=
  match d.switchport_mode with
  | none => .ok none
  | some v => coerceOptStr v

/-- `switchport_native_vlan: Optional[int] = None` with
`validate_native_vlan`. -/
def nativeVlanField (d : RawData) : Except VErr (Option Int) :=
  match d.switchport_native_vlan with
  | none => .ok none
  | some v => do validate_native_vlan (← coerceOptInt v)

/-- `switchport_allowed_vlans: Optional[str] = None` with
`validate_allowed_vlans`. -/
def allowedVlansField (d : RawData) : Except VErr (Option (List Char)) :=
  match d.switchport_allowed_vlans with
  | none => .ok none
  | some v => do validate_allowed_vlans (← coerceOptStr v)

/-- `interface_ip4_address: Optional[IPv4Interface]`, alias
`network_interface_ip4_address`, default `None`. -/
def ip4Field (d : RawData) : Except VErr (Option IPv4Intf) :=
  match d.network_interface_ip4_address with
  | none => .ok none
  | some v => coerceOptIp v

/-- Field phase of `InterfacePortConfig` (inherited fields first, then the
subclass fields, in definition order). -/
def buildPortFields (d : RawData) : Except VErr InterfacePortConfigRec := do
  let base ← buildInterfaceFields d
  let mode ← modeField d
  let nv ← nativeVlanField d
  let av ← allowedVlansField d
  let ip ← ip4Field d
  .ok { toInterfaceDataRec := base, switchport_mode := mode,
        switchport_native_vlan := nv, switchport_allowed_vlans := av,
        interface_ip4_address := ip }

/-- `InterfacePortConfig.model_validate`: the four before-mode model
validators in reverse definition order (subclass validators first), then
the field phase. -/
def InterfacePortConfig_model_validate (d : RawData) : Except VErr InterfacePortConfigRec := do
  let d ← remove_unset_ip4_addr d
  let d ← set_switchport_details d
  let d ← remove_unset_mtu d
  let d ← set_interface_details d
  buildPortFields d

/-! ### Concrete ticket inputs used by the properties -/

/-- A base-model ticket like the workshop sample, with a chosen raw name,
description and MTU value. -/
def baseInput (nm mtu desc : PyVal) : RawData :=
  { network_interface_name := some nm,
    network_interface_description := some desc,
    network_interface_enabled := some (.vbool true),
    network_interface_mtu := some mtu }

/-- A switchport-model ticket with a chosen descriptor-field state (all
other fields fixed to the valid workshop values; the IP field is a present
empty string so the default applies). -/
def portInput (sw : Option PyVal) : RawData :=
  { network_interface_name := some (.vstr "GigabitEthernet1/0/3".data),
    network_interface_description := some (.vstr []),
    network_interface_enabled := some (.vbool true),
    network_interface_mtu := some (.vstr []),
    network_switchport_mode_and_vlan := sw,
    network_interface_ip4_address := some (.vstr []) }

/-! ### Helper lemmas -/

/-- Unfolding a successful `Except` bind. -/
theorem exceptBind_ok {α β : Type} {x : Except VErr α} {f : α → Except VErr β} {b : β}
    (h : x >>= f = Except.ok b) : ∃ a, x = Except.ok a ∧ f a = Except.ok b := by
  cases x with
  | error e => simp [Bind.bind, Except.bind] at h
  | ok a => exact ⟨a, rfl, by simpa [Bind.bind, Except.bind] using h⟩

/-- `splitFirst` finds nothing when the separator does not occur. -/
theorem splitFirst_not_mem {sep : Char} {s : List Char} (h : sep ∉ s) :
    splitFirst sep s = none := by
  induction s with
  | nil => rfl
  | cons c rest ih =>
    simp only [List.mem_cons, not_or] at h
    simp [splitFirst, Ne.symm h.1, ih h.2]

/-- `splitFirst` splits at the first separator occurrence. -/
theorem splitFirst_append {sep : Char} {a : List Char} (b : List Char) (h : sep ∉ a) :
    splitFirst sep (a ++ sep :: b) = some (a, b) := by
  induction a with
  | nil => simp [splitFirst]
  | cons c rest ih =>
    simp only [List.mem_cons, not_or] at h
    simp [splitFirst, Ne.symm h.1, ih h.2]

/-- `splitAll` produces one more part than there are delimiters. -/
theorem splitAll_length (p : Char → Bool) (l : List Char) :
    (splitAll p l).length = (l.filter p).length + 1 := by
  induction l with
  | nil => simp [splitAll]
  | cons c rest ih =>
    by_cases h : p c
    · simp [splitAll, h, ih]
    · cases hsp : splitAll p rest with
      | nil => rw [hsp] at ih; simp at ih
      | cons g gs =>
        rw [hsp] at ih
        have hred : splitAll p (c :: rest) = (c :: g) :: gs := by
          simp [splitAll, h, hsp]
        rw [hred, List.filter_cons_of_neg (by simp [h])]
        simp at ih ⊢
        omega

/-- A character between `1` and `9` is a digit. -/
theorem isDigit_of_one_le_le_nine {c : Char} (h : '1' ≤ c ∧ c ≤ '9') :
    c.isDigit = true := by
  obtain ⟨h1, h2⟩ := h
  rw [Char.le_def] at h1 h2
  simp only [Char.isDigit, Bool.and_eq_true, decide_eq_true_eq, ge_iff_le]
  exact ⟨UInt32.le_trans (show (48 : UInt32) ≤ Char.val '1' by decide) h1,
         UInt32.le_trans h2 (show Char.val '9' ≤ (57 : UInt32) by decide)⟩

/-- Every character a successful scanner run consumes is a digit, `/` or
`.`. -/
theorem gramStep_charOk {st st' : GramState} {c : Char}
    (h : gramStep st c = some st') : (c.isDigit || c = '/' || c = '.') = true := by
  cases st <;> simp only [gramStep] at h <;> repeat' split at h
  all_goals first
    | exact Option.noConfusion h
    | (rename_i hc
       first
         | (subst hc; decide)
         | simp [isDigit_of_one_le_le_nine hc]
         | simp [hc])

/-- Characters of a string accepted by a scanner run. -/
theorem gramRun_chars {s : List Char} :
    ∀ {st st' : GramState}, gramRun st s = some st' →
      ∀ c ∈ s, (c.isDigit || c = '/' || c = '.') = true := by
  induction s with
  | nil => intro st st' _ c hc; simp at hc
  | cons a rest ih =>
    intro st st' h c hc
    unfold gramRun at h
    cases hstep : gramStep st a with
    | none => rw [hstep] at h; cases h
    | some st1 =>
      rw [hstep] at h
      rcases List.mem_cons.mp hc with hc | hc
      · subst hc; exact gramStep_charOk hstep
      · exact ih h c hc

/-- A grammar-compliant index is non-empty and starts with a digit. -/
theorem specIndexGrammar_head {s : List Char} (h : specIndexGrammar s = true) :
    ∃ c rest, s = c :: rest ∧ c.isDigit = true := by
  cases s with
  | nil => simp [specIndexGrammar, gramRun, gramAccepts] at h
  | cons c rest =>
    refine ⟨c, rest, rfl, ?_⟩
    unfold specIndexGrammar gramRun at h
    cases hstep : gramStep .groupStart c with
    | none => rw [hstep] at h; cases h
    | some st1 =>
      have := gramStep_charOk hstep
      simp only [gramStep] at hstep
      split at hstep
      · rename_i h0; subst h0; decide
      · split at hstep
        · rename_i h19; exact isDigit_of_one_le_le_nine h19
        · cases hstep

/-- A grammar-compliant index contains only digits, `/` and `.` — in
particular no newline, so `(.*)` captures it in full. -/
theorem specIndexGrammar_chars {s : List Char} (h : specIndexGrammar s = true) :
    ∀ c ∈ s, (c.isDigit || c = '/' || c = '.') = true := by
  unfold specIndexGrammar at h
  cases hrun : gramRun .groupStart s with
  | none => rw [hrun] at h; cases h
  | some st => exact gramRun_chars hrun

/-- The allowed-VLAN token loop succeeds exactly when every token parses
as an integer in `[1, 4094]`. -/
theorem checkVlanTokens_isOk (ts : List (List Char)) :
    isOk (checkVlanTokens ts) = ts.all vlanTokenOk := by
  induction ts with
  | nil => rfl
  | cons t ts ih =>
    simp only [checkVlanTokens, List.all_cons, vlanTokenOk]
    cases hp : pyParseInt t with
    | none => simp [isOk]
    | some n =>
      by_cases hr : 1 ≤ n ∧ n ≤ 4094
      · simp [hr, ih]
      · simp [isOk, hr]

/-- The `ge`/`le` constraint only lets in-range MTUs through. -/
theorem checkMtuRange_ok {n m : Int} (h : checkMtuRange n = .ok m) :
    1500 ≤ m ∧ m ≤ 9000 := by
  unfold checkMtuRange at h
  split at h
  · cases h; assumption
  · cases h

/-- Any MTU the field phase produces is in range (the default `1500`
included). -/
theorem mtuField_ok {d : RawData} {m : Int} (h : mtuField d = .ok m) :
    1500 ≤ m ∧ m ≤ 9000 := by
  unfold mtuField at h
  cases hd : d.network_interface_mtu with
  | none => rw [hd] at h; cases h; constructor <;> decide
  | some v =>
    rw [hd] at h
    obtain ⟨n, _, h2⟩ := exceptBind_ok h
    exact checkMtuRange_ok h2

/-- A successful field phase reports the MTU computed by `mtuField`. -/
theorem buildInterfaceFields_mtu {d : RawData} {r : InterfaceDataRec}
    (h : buildInterfaceFields d = .ok r) : mtuField d = .ok r.interface_mtu := by
  unfold buildInterfaceFields at h
  obtain ⟨ty, h1, h⟩ := exceptBind_ok h
  obtain ⟨nm, h2, h⟩ := exceptBind_ok h
  obtain ⟨en, h3, h⟩ := exceptBind_ok h
  obtain ⟨desc, h4, h⟩ := exceptBind_ok h
  obtain ⟨mtu, h5, h⟩ := exceptBind_ok h
  cases h
  exact h5

/-- MTU range invariant of the whole base-model validation. -/
theorem InterfaceData_model_validate_mtu {d : RawData} {r : InterfaceDataRec}
    (h : InterfaceData_model_validate d = .ok r) :
    1500 ≤ r.interface_mtu ∧ r.interface_mtu ≤ 9000 := by
  unfold InterfaceData_model_validate at h
  obtain ⟨d1, _, h⟩ := exceptBind_ok h
  obtain ⟨d2, _, h⟩ := exceptBind_ok h
  exact mtuField_ok (buildInterfaceFields_mtu h)

/-- A non-empty description is kept by `empty_str_to_none`. -/
theorem empty_str_to_none_ne {s : List Char} (h : s ≠ []) :
    empty_str_to_none (some s) = some s := by
  cases s with
  | nil => exact absurd rfl h
  | cons c rest => rfl

/-- `takeWhile` keeps a list all of whose elements satisfy the
predicate. -/
theorem takeWhile_all {p : Char → Bool} {l : List Char} (h : ∀ c ∈ l, p c = true) :
    l.takeWhile p = l := by
  induction l with
  | nil => rfl
  | cons c rest ih =>
    rw [List.takeWhile_cons_of_pos (h c (by simp))]
    rw [ih (fun x hx => h x (by simp [hx]))]

/-- A digit, `/` or `.` is not a newline. -/
theorem charOk_ne_newline {c : Char} (h : (c.isDigit || c = '/' || c = '.') = true) :
    c ≠ '\n' := by
  intro he
  subst he
  exact absurd h (by decide)

/-- The `max_length` constraint only lets short descriptions through. -/
theorem checkDescLen_ok {s : List Char} {u : Unit}
    (h : checkDescLen (some s) = .ok u) : s.length ≤ 200 := by
  simp only [checkDescLen] at h
  split at h
  · assumption
  · cases h

/-- The checked-description invariant: a successful description field is
absent or a non-empty string of at most 200 characters. -/
theorem descriptionField_ok {d : RawData} {o : Option (List Char)}
    (h : descriptionField d = .ok o) :
    ∀ s, o = some s → s ≠ [] ∧ s.length ≤ 200 := by
  unfold descriptionField at h
  cases hd : d.network_interface_description with
  | none => rw [hd] at h; cases h
  | some v =>
    rw [hd] at h
    obtain ⟨s₀, h1, h⟩ := exceptBind_ok h
    obtain ⟨u, h2, h⟩ := exceptBind_ok h
    intro s hs
    cases h
    cases s₀ with
    | none => simp [empty_str_to_none] at hs
    | some t =>
      cases t with
      | nil => simp [empty_str_to_none] at hs
      | cons a b =>
        simp only [empty_str_to_none, Option.some.injEq] at hs
        subst hs
        exact ⟨by simp, checkDescLen_ok h2⟩

/-- A successful field phase reports the description computed by
`descriptionField`. -/
theorem buildInterfaceFields_desc {d : RawData} {r : InterfaceDataRec}
    (h : buildInterfaceFields d = .ok r) :
    descriptionField d = .ok r.interface_description := by
  unfold buildInterfaceFields at h
  obtain ⟨ty, h1, h⟩ := exceptBind_ok h
  obtain ⟨nm, h2, h⟩ := exceptBind_ok h
  obtain ⟨en, h3, h⟩ := exceptBind_ok h
  obtain ⟨desc, h4, h⟩ := exceptBind_ok h
  obtain ⟨mtu, h5, h⟩ := exceptBind_ok h
  cases h
  exact h4

/-- Description invariant of the whole base-model validation. -/
theorem InterfaceData_model_validate_desc {d : RawData} {r : InterfaceDataRec}
    (h : InterfaceData_model_validate d = .ok r) :
    ∀ s, r.interface_description = some s → s ≠ [] ∧ s.length ≤ 200 := by
  unfold InterfaceData_model_validate at h
  obtain ⟨d1, _, h⟩ := exceptBind_ok h
  obtain ⟨d2, _, h⟩ := exceptBind_ok h
  exact descriptionField_ok (buildInterfaceFields_desc h)

/-- The raw ticket name shared by the concrete inputs below. -/
def gigName : PyVal := .vstr "GigabitEthernet1/0/3".data

/-- The raw data after `remove_unset_ip4_addr` has deleted the present
empty IP field of a `portInput` ticket. -/
def portStage1 (sw : Option PyVal) : RawData :=
  { portInput sw with network_interface_ip4_address := none }

/-- Unfolding of the port pipeline through its first before-validator
(which always succeeds on a `portInput` ticket). -/
theorem port_pipeline (sw : Option PyVal) :
    InterfacePortConfig_model_validate (portInput sw) =
      set_switchport_details (portStage1 sw) >>= fun d =>
        remove_unset_mtu d >>= fun d =>
          set_interface_details d >>= buildPortFields := rfl

/-! ### Claim theorems -/

/-- C1.  The index check is an UNANCHORED `re.match`: the index `1//3`
fails the full spec grammar, yet `YANG_REGEX.match` is truthy on it (the
leading digit group matches as a prefix), so the whole validation of
`GigabitEthernet1//3` succeeds with `interface_name = 1//3` instead of
failing with the invalid-index error. -/
theorem c1_unanchored_index_accepted :
    specIndexGrammar "1//3".data = false ∧
    yangRegexMatches "1//3".data = true ∧
    (InterfaceData_model_validate
        (baseInput (.vstr "GigabitEthernet1//3".data) (.vstr "1500".data) (.vstr []))).map
      (fun r => r.interface_name) = .ok "1//3".data :=
  ⟨rfl, rfl, rfl⟩

/-- C2.  The native-VLAN range check `if v and not 1 <= int(v) <= 4094`
skips the falsy value `0`, so the descriptor `access:0` validates
successfully with `switchport_native_vlan = 0`, contradicting both the
claim and the validator doc string. -/
theorem c2_native_vlan_zero_accepted :
    (InterfacePortConfig_model_validate (portInput (some (.vstr "access:0".data)))).map
      (fun r => r.switchport_native_vlan) = .ok (some 0) ∧
    validate_native_vlan (some 0) = .ok (some 0) :=
  ⟨rfl, rfl⟩

/-- C3 counterexample.  The descriptor `bogus:100` (mode token not one of
access/trunk/l3) does NOT fail validation: the record is produced with
`switchport_mode = "bogus"`. -/
theorem c3_counterexample :
    (InterfacePortConfig_model_validate (portInput (some (.vstr "bogus:100".data)))).map
      (fun r => r.switchport_mode) = .ok (some "bogus".data) := rfl

/-- C3 (amended).  A descriptor whose mode token is not case-insensitively
one of access/trunk/l3 is accepted: the raw token is stored unchanged as
`switchport_mode`, no VLAN field is populated, and the rest of the record
validates as usual. -/
theorem c3_unknown_mode_accepted (mode rest : List Char)
    (hc : ':' ∉ mode)
    (hm : lowerStr mode ≠ "l3".data ∧ lowerStr mode ≠ "access".data ∧
          lowerStr mode ≠ "trunk".data) :
    InterfacePortConfig_model_validate (portInput (some (.vstr (mode ++ ':' :: rest)))) =
      .ok { interface_type := "GigabitEthernet".data, interface_name := "1/0/3".data,
            interface_enabled := true, interface_description := none, interface_mtu := 1500,
            switchport_mode := some mode, switchport_native_vlan := none,
            switchport_allowed_vlans := none, interface_ip4_address := none } := by
  rw [port_pipeline]
  have hsw : set_switchport_details (portStage1 (some (.vstr (mode ++ ':' :: rest)))) =
      .ok { portStage1 (some (.vstr (mode ++ ':' :: rest))) with
            switchport_mode := some (.vstr mode) } := by
    show parse_switchport_descriptor _ _ = _
    unfold parse_switchport_descriptor
    rw [splitFirst_append rest hc]
    simp [hm.1, hm.2.1, hm.2.2]
  rw [hsw]
  rfl

/-- C3 witness: the amended statement at the concrete mode token
`foo`. -/
theorem c3_unknown_mode_accepted_witness :
    InterfacePortConfig_model_validate
        (portInput (some (.vstr ("foo".data ++ ':' :: "100".data)))) =
      .ok { interface_type := "GigabitEthernet".data, interface_name := "1/0/3".data,
            interface_enabled := true, interface_description := none, interface_mtu := 1500,
            switchport_mode := some "foo".data, switchport_native_vlan := none,
            switchport_allowed_vlans := none, interface_ip4_address := none } :=
  c3_unknown_mode_accepted "foo".data "100".data (by decide) ⟨by decide, by decide, by decide⟩

/-- C4 counterexample.  When the descriptor field is absent,
`data["network_switchport_mode_and_vlan"]` raises a `KeyError` that
pydantic does not wrap: the failure is an unstructured exception escaping
`model_validate`, not a structured validation failure. -/
theorem c4_counterexample :
    InterfacePortConfig_model_validate (portInput none) =
      .error (.uncaught "KeyError: network_switchport_mode_and_vlan".data) ∧
    isInvalid (InterfacePortConfig_model_validate (portInput none)) = false :=
  ⟨rfl, rfl⟩

/-- C4 (amended).  A descriptor string with no `:` separator fails with a
structured validation error (the two-name unpacking raises `ValueError`,
which pydantic wraps) and no record is produced; a MISSING descriptor
field instead escapes as an unwrapped `KeyError`. -/
theorem c4_descriptor_failures (s : List Char) (h : ':' ∉ s) :
    isInvalid (InterfacePortConfig_model_validate (portInput (some (.vstr s)))) = true ∧
    isUncaught (InterfacePortConfig_model_validate (portInput none)) = true := by
  refine ⟨?_, rfl⟩
  rw [port_pipeline]
  have hsw : set_switchport_details (portStage1 (some (.vstr s))) =
      .error (.invalid "not enough values to unpack (expected 2, got 1)".data) := by
    show parse_switchport_descriptor _ _ = _
    unfold parse_switchport_descriptor
    rw [splitFirst_not_mem h]
  rw [hsw]
  rfl

/-- C4 witness: the amended statement at the colon-less descriptor
`access`. -/
theorem c4_descriptor_failures_witness :
    isInvalid (InterfacePortConfig_model_validate
        (portInput (some (.vstr "access".data)))) = true ∧
    isUncaught (InterfacePortConfig_model_validate (portInput none)) = true :=
  c4_descriptor_failures "access".data (by decide)

/-- C5.  MTU handling: a present empty raw MTU is removed so the default
1500 applies; `1499` fails the range constraint; `9000` is accepted; and
every successfully validated record has its MTU in `[1500, 9000]`. -/
theorem c5_mtu_rules :
    ((InterfaceData_model_validate (baseInput gigName (.vstr []) (.vstr []))).map
        (fun r => r.interface_mtu) = .ok 1500) ∧
    isInvalid (InterfaceData_model_validate
        (baseInput gigName (.vstr "1499".data) (.vstr []))) = true ∧
    ((InterfaceData_model_validate (baseInput gigName (.vstr "9000".data) (.vstr []))).map
        (fun r => r.interface_mtu) = .ok 9000) ∧
    ∀ (d : RawData) (r : InterfaceDataRec),
      InterfaceData_model_validate d = .ok r →
        1500 ≤ r.interface_mtu ∧ r.interface_mtu ≤ 9000 :=
  ⟨rfl, rfl, rfl, fun _ _ h => InterfaceData_model_validate_mtu h⟩

/-- The record produced for the 9000-MTU ticket (C5 witness). -/
def mtu9000Rec : InterfaceDataRec :=
  { interface_type := "GigabitEthernet".data, interface_name := "1/0/3".data,
    interface_enabled := true, interface_description := none, interface_mtu := 9000 }

/-- C5 witness: the range invariant applied to the concrete 9000-MTU
ticket. -/
theorem c5_mtu_rules_witness :
    1500 ≤ mtu9000Rec.interface_mtu ∧ mtu9000Rec.interface_mtu ≤ 9000 :=
  c5_mtu_rules.2.2.2 (baseInput gigName (.vstr "9000".data) (.vstr [])) mtu9000Rec rfl

/-- C6.  The name split: for any raw name that is a non-empty run of
non-digits followed by a grammar-compliant index, `set_interface_details`
recovers exactly that run as the class and the index as the remainder;
for a string input the split fails exactly when the string is empty or
starts with a digit (no leading non-digit run); a non-string input also
fails. -/
theorem c6_name_split :
    (∀ (cls idx : List Char) (d : RawData),
        cls ≠ [] → (∀ c ∈ cls, c.isDigit = false) → specIndexGrammar idx = true →
        d.network_interface_name = some (.vstr (cls ++ idx)) →
        set_interface_details d =
          .ok { d with interface_type := some (.vstr cls),
                       interface_name := some (.vstr idx) }) ∧
    (∀ (s : List Char) (d : RawData), d.network_interface_name = some (.vstr s) →
        (isInvalid (set_interface_details d) = true ↔
          s = [] ∨ ∃ c rest, s = c :: rest ∧ c.isDigit = true)) ∧
    (∀ (v : PyVal) (d : RawData), d.network_interface_name = some v →
        (∀ t, v ≠ .vstr t) → isInvalid (set_interface_details d) = true) := by
  refine ⟨?_, ?_, ?_⟩
  · intro cls idx d hne hnd hgram hd
    obtain ⟨c₀, rest₀, hidx, hdig⟩ := specIndexGrammar_head hgram
    have hpos : ∀ a ∈ cls, (fun c => !c.isDigit) a = true := by
      intro a ha; simp [hnd a ha]
    have htake : (cls ++ idx).takeWhile (fun c => !c.isDigit) = cls := by
      rw [List.takeWhile_append_of_pos hpos, hidx,
          List.takeWhile_cons_of_neg (by simp [hdig])]
      simp
    have hdrop : (cls ++ idx).dropWhile (fun c => !c.isDigit) = idx := by
      rw [List.dropWhile_append_of_pos hpos, hidx,
          List.dropWhile_cons_of_neg (by simp [hdig])]
    have hnl : idx.takeWhile (fun c => c ≠ '\n') = idx := by
      refine takeWhile_all (fun c hc => ?_)
      simp [charOk_ne_newline (specIndexGrammar_chars hgram c hc)]
    have hemp : cls.isEmpty = false := by
      cases cls with
      | nil => exact absurd rfl hne
      | cons a b => rfl
    simp [set_interface_details, hd, interfaceRegexMatch, htake, hdrop, hnl, hemp]
    exact fun x hx => charOk_ne_newline (specIndexGrammar_chars hgram x hx)
  · intro s d hd
    cases s with
    | nil => simp [set_interface_details, hd, interfaceRegexMatch, isInvalid]
    | cons c rest =>
      by_cases hdig : c.isDigit
      · have ht : List.takeWhile (fun x => !x.isDigit) (c :: rest) = [] :=
          List.takeWhile_cons_of_neg (by simp [hdig])
        simp [set_interface_details, hd, interfaceRegexMatch, ht, isInvalid, hdig]
      · have ht : List.takeWhile (fun x => !x.isDigit) (c :: rest) =
            c :: List.takeWhile (fun x => !x.isDigit) rest :=
          List.takeWhile_cons_of_pos (by simp [hdig])
        simp [set_interface_details, hd, interfaceRegexMatch, ht, isInvalid, hdig]
  · intro v d hd hv
    cases v with
    | vstr s => exact absurd rfl (hv s)
    | vint n => simp [set_interface_details, hd, isInvalid]
    | vbool b => simp [set_interface_details, hd, isInvalid]
    | vnone => simp [set_interface_details, hd, isInvalid]

/-- C6 witness: the successful split at the concrete workshop name. -/
theorem c6_name_split_witness :
    set_interface_details (baseInput gigName (.vstr []) (.vstr [])) =
      .ok { baseInput gigName (.vstr []) (.vstr []) with
            interface_type := some (.vstr "GigabitEthernet".data),
            interface_name := some (.vstr "1/0/3".data) } :=
  c6_name_split.1 "GigabitEthernet".data "1/0/3".data _ (by decide) (by decide)
    (by decide) rfl

set_option maxRecDepth 8000 in
/-- C7.  Description handling: an empty raw description and an explicit
`None` both validate to an absent description; a 201-character raw string
fails the length constraint; a 200-character string is accepted unchanged;
and every validated description is absent or a non-empty string of at
most 200 characters. -/
theorem c7_description_rules :
    ((InterfaceData_model_validate (baseInput gigName (.vstr "1500".data) (.vstr []))).map
        (fun r => r.interface_description) = .ok none) ∧
    ((InterfaceData_model_validate (baseInput gigName (.vstr "1500".data) .vnone)).map
        (fun r => r.interface_description) = .ok none) ∧
    isInvalid (InterfaceData_model_validate
        (baseInput gigName (.vstr "1500".data) (.vstr (List.replicate 201 'a')))) = true ∧
    ((InterfaceData_model_validate
        (baseInput gigName (.vstr "1500".data) (.vstr (List.replicate 200 'a')))).map
        (fun r => r.interface_description) = .ok (some (List.replicate 200 'a'))) ∧
    ∀ (d : RawData) (r : InterfaceDataRec),
      InterfaceData_model_validate d = .ok r →
        ∀ s, r.interface_description = some s → s ≠ [] ∧ s.length ≤ 200 :=
  ⟨rfl, rfl, rfl, rfl, fun _ _ h => InterfaceData_model_validate_desc h⟩

/-- The record produced for the 200-character-description ticket (C7
witness). -/
def desc200Rec : InterfaceDataRec :=
  { interface_type := "GigabitEthernet".data, interface_name := "1/0/3".data,
    interface_enabled := true, interface_description := some (List.replicate 200 'a'),
    interface_mtu := 1500 }

set_option maxRecDepth 8000 in
/-- C7 witness: the description invariant applied to the concrete
200-character ticket. -/
theorem c7_description_rules_witness :
    List.replicate 200 'a' ≠ [] ∧ (List.replicate 200 'a').length ≤ 200 :=
  c7_description_rules.2.2.2.2
    (baseInput gigName (.vstr "1500".data) (.vstr (List.replicate 200 'a'))) desc200Rec
    rfl (List.replicate 200 'a') rfl

/-- C8 counterexample.  For the descriptor `trunk:100:` the validated
record's allowed-VLAN field is `None` (absent), not the empty string: the
`validate_allowed_vlans` validator turns `""` into `None`. -/
theorem c8_counterexample :
    (InterfacePortConfig_model_validate (portInput (some (.vstr "trunk:100:".data)))).map
      (fun r => r.switchport_allowed_vlans) = .ok none ∧
    (Except.ok (none : Option (List Char)) : Except VErr (Option (List Char))) ≠
      .ok (some []) :=
  ⟨rfl, fun h => Option.noConfusion (Except.ok.inj h)⟩

/-- C8 (amended).  `trunk:100:` validates to mode `trunk`, native VLAN
100, and an ABSENT allowed-VLAN list (the raw empty allowed string is
normalized to `None`, with no elements checked). -/
theorem c8_trunk_empty_allowed :
    InterfacePortConfig_model_validate (portInput (some (.vstr "trunk:100:".data))) =
      .ok { interface_type := "GigabitEthernet".data, interface_name := "1/0/3".data,
            interface_enabled := true, interface_description := none, interface_mtu := 1500,
            switchport_mode := some "trunk".data, switchport_native_vlan := some 100,
            switchport_allowed_vlans := none, interface_ip4_address := none } := rfl

/-- C9.  The allowed-VLAN list check: spaces are stripped, the string is
split on `,` and `-` as plain delimiters, and only the resulting tokens
are range-checked — `10,20-30,4095` fails naming 4095, `10,20,30` passes,
`10-20` passes checking only the endpoint tokens 10 and 20, and in
general a non-empty list validates exactly when every token parses into
`[1, 4094]`. -/
theorem c9_allowed_vlan_split :
    (validate_allowed_vlans (some "10,20-30,4095".data) =
      .error (.invalid ("VLAN ".data ++ "4095".data ++
        " error: must be in the range 1-4094".data))) ∧
    (validate_allowed_vlans (some "10,20,30".data) = .ok (some "10,20,30".data)) ∧
    (validate_allowed_vlans (some "10-20".data) = .ok (some "10-20".data)) ∧
    (splitAll isCommaDash (removeSpaces "10-20".data) = ["10".data, "20".data]) ∧
    ∀ s : List Char, s ≠ [] →
      isOk (validate_allowed_vlans (some s)) =
        (splitAll isCommaDash (removeSpaces s)).all vlanTokenOk := by
  refine ⟨rfl, rfl, rfl, rfl, ?_⟩
  intro s hs
  simp only [validate_allowed_vlans]
  rw [if_neg hs]
  have hck := checkVlanTokens_isOk (splitAll isCommaDash (removeSpaces s))
  cases hc : checkVlanTokens (splitAll isCommaDash (removeSpaces s)) with
  | ok u => rw [hc] at hck; simpa [isOk] using hck
  | error e => rw [hc] at hck; simpa [isOk] using hck

/-- C9 witness: the token-level characterization at the concrete list
`10-20`. -/
theorem c9_allowed_vlan_split_witness :
    isOk (validate_allowed_vlans (some "10-20".data)) =
      (splitAll isCommaDash (removeSpaces "10-20".data)).all vlanTokenOk :=
  c9_allowed_vlan_split.2.2.2.2 "10-20".data (by decide)

/-- C10.  A trunk descriptor whose remainder after the first `:` contains
two or more further colons fails validation (the two-name unpacking of
`rest.split(":")` raises `ValueError`, wrapped into a structured
validation failure) and no record is produced. -/
theorem c10_trunk_extra_colons (rest : List Char)
    (h : 2 ≤ (rest.filter (fun c => c = ':')).length) :
    isInvalid (InterfacePortConfig_model_validate
        (portInput (some (.vstr ("trunk".data ++ ':' :: rest))))) = true := by
  rw [port_pipeline]
  have hlen : 3 ≤ (splitAll (fun c => c = ':') rest).length := by
    rw [splitAll_length]
    have : (List.filter (fun c => decide (c = ':')) rest).length =
        (List.filter (fun c => c = ':') rest).length := rfl
    omega
  rcases hsp : splitAll (fun c => c = ':') rest with _ | ⟨p1, _ | ⟨p2, _ | ⟨p3, tl⟩⟩⟩
  · rw [hsp] at hlen; simp at hlen
  · rw [hsp] at hlen; simp at hlen
  · rw [hsp] at hlen; simp at hlen
  · have hsw : parse_switchport_descriptor
        (portStage1 (some (.vstr ("trunk".data ++ ':' :: rest))))
        ("trunk".data ++ ':' :: rest) =
        .error (.invalid "too many values to unpack (expected 2)".data) := by
      unfold parse_switchport_descriptor
      rw [splitFirst_append rest (by decide)]
      dsimp only
      rw [if_neg (by decide), if_neg (by decide),
          if_pos (show lowerStr "trunk".data = "trunk".data from rfl)]
      rw [hsp]
      dsimp only
      rw [if_neg (by simp)]
    rw [show set_switchport_details (portStage1 (some (.vstr ("trunk".data ++ ':' :: rest)))) =
          parse_switchport_descriptor
            (portStage1 (some (.vstr ("trunk".data ++ ':' :: rest))))
            ("trunk".data ++ ':' :: rest) from rfl,
        hsw]
    rfl

/-- C10 witness: the failure at the concrete descriptor
`trunk:100:10:20`. -/
theorem c10_trunk_extra_colons_witness :
    isInvalid (InterfacePortConfig_model_validate
        (portInput (some (.vstr ("trunk".data ++ ':' :: "100:10:20".data))))) = true :=
  c10_trunk_extra_colons "100:10:20".data (by decide)

end Wks2477
